import Mathlib

/-!
Verification of the tomclient OAuth2/PKCE authentication subsystem.

This file shallowly embeds the Go source of the `auth`, `auth/providers`
and `tomapi` packages: pure functions become Lean functions over `Nat`,
`Int` and `String`; file and network effects are passed in explicitly
(the previously stored token, the refresh outcome, the callback event);
machine words are `Nat` with explicit `% 2^32` where the Go code relies
on 32-bit wraparound (SHA-256); fallible operations return `Except`.
Timestamps are modelled as integer Unix seconds; Go's zero `time.Time`
is modelled as `0`.
-/

namespace TomClient

/-! ## Byte-level primitives

`crypto/sha256` and `encoding/base64` (RawURLEncoding) as used by
`auth/pkce.go`. Bytes are `Nat` values below 256, 32-bit words are `Nat`
values below 2^32 with explicit reduction.
-/

/-- 32-bit truncating addition. -/
def add32 (a b : Nat) : Nat := (a + b) % 4294967296

/-- 32-bit right rotation. -/
def rotr32 (n x : Nat) : Nat := ((x >>> n) ||| (x <<< (32 - n))) % 4294967296

/-- 32-bit bitwise complement. -/
def not32 (x : Nat) : Nat := x ^^^ 4294967295

/-- SHA-256 small sigma 0. -/
def ssig0 (x : Nat) : Nat := (rotr32 7 x) ^^^ (rotr32 18 x) ^^^ (x >>> 3)

/-- SHA-256 small sigma 1. -/
def ssig1 (x : Nat) : Nat := (rotr32 17 x) ^^^ (rotr32 19 x) ^^^ (x >>> 10)

/-- SHA-256 big sigma 0. -/
def bsig0 (x : Nat) : Nat := (rotr32 2 x) ^^^ (rotr32 13 x) ^^^ (rotr32 22 x)

/-- SHA-256 big sigma 1. -/
def bsig1 (x : Nat) : Nat := (rotr32 6 x) ^^^ (rotr32 11 x) ^^^ (rotr32 25 x)

/-- SHA-256 choice function. -/
def chFn (e f g : Nat) : Nat := (e &&& f) ^^^ ((not32 e) &&& g)

/-- SHA-256 majority function. -/
def majFn (a b c : Nat) : Nat := (a &&& b) ^^^ (a &&& c) ^^^ (b &&& c)

/-- SHA-256 round constants (FIPS 180-4 §4.2.2, written in decimal). -/
def sha256K : List Nat :=
  [1116352408, 1899447441, 3049323471, 3921009573, 961987163, 1508970993,
   2453635748, 2870763221, 3624381080, 310598401, 607225278, 1426881987,
   1925078388, 2162078206, 2614888103, 3248222580, 3835390401, 4022224774,
   264347078, 604807628, 770255983, 1249150122, 1555081692, 1996064986,
   2554220882, 2821834349, 2952996808, 3210313671, 3336571891, 3584528711,
   113926993, 338241895, 666307205, 773529912, 1294757372, 1396182291,
   1695183700, 1986661051, 2177026350, 2456956037, 2730485921, 2820302411,
   3259730800, 3345764771, 3516065817, 3600352804, 4094571909, 275423344,
   430227734, 506948616, 659060556, 883997877, 958139571, 1322822218,
   1537002063, 1747873779, 1955562222, 2024104815, 2227730452, 2361852424,
   2428436474, 2756734187, 3204031479, 3329325298]

/-- SHA-256 initial hash state (FIPS 180-4 §5.3.3, written in decimal). -/
def sha256Init : List Nat :=
  [1779033703, 3144134277, 1013904242, 2773480762,
   1359893119, 2600822924, 528734635, 1541459225]

/-- Group a list of bytes into big-endian 32-bit words. -/
def bytesToWords : List Nat → List Nat
  | b0 :: b1 :: b2 :: b3 :: rest =>
      ((b0 <<< 24) ||| (b1 <<< 16) ||| (b2 <<< 8) ||| b3) :: bytesToWords rest
  | _ => []

/-- Big-endian bytes of one 32-bit word. -/
def wordToBytes (w : Nat) : List Nat :=
  [(w >>> 24) &&& 255, (w >>> 16) &&& 255, (w >>> 8) &&& 255, w &&& 255]

/-- Extend the 16-word message schedule by `k` further words. -/
def extendW (w : List Nat) : Nat → List Nat
  | 0 => w
  | Nat.succ k =>
      let n := w.length
      let wi := add32 (add32 (ssig1 (w.getD (n - 2) 0)) (w.getD (n - 7) 0))
                      (add32 (ssig0 (w.getD (n - 15) 0)) (w.getD (n - 16) 0))
      extendW (w ++ [wi]) k

/-- One SHA-256 compression round, folding a `(k, w)` pair into the working state. -/
def compressStep (st : List Nat) (kw : Nat × Nat) : List Nat :=
  match st with
  | [a, b, c, d, e, f, g, h] =>
      let t1 := add32 h (add32 (bsig1 e) (add32 (chFn e f g) (add32 kw.1 kw.2)))
      let t2 := add32 (bsig0 a) (majFn a b c)
      [add32 t1 t2, a, b, c, add32 d t1, e, f, g]
  | other => other

/-- Process one 64-byte block, updating the 8-word hash state. -/
def sha256Block (h : List Nat) (block : List Nat) : List Nat :=
  let w := extendW (bytesToWords block) 48
  let st := (sha256K.zip w).foldl compressStep h
  List.zipWith add32 h st

/-- Helper for `chunks64`: collects the current block in reverse in `cur`. -/
def chunks64Go (cur : List Nat) : List Nat → List (List Nat)
  | [] => if cur.isEmpty then [] else [cur.reverse]
  | x :: xs =>
      if cur.length = 63 then (x :: cur).reverse :: chunks64Go [] xs
      else chunks64Go (x :: cur) xs

/-- Split a byte list into 64-byte chunks. -/
def chunks64 (l : List Nat) : List (List Nat) := chunks64Go [] l

/-- SHA-256 padding: append `0x80`, zero bytes, and the 64-bit big-endian bit length. -/
def sha256Pad (msg : List Nat) : List Nat :=
  let len := msg.length
  let zeros := (64 - ((len + 9) % 64)) % 64
  let bits := len * 8
  msg ++ [0x80] ++ List.replicate zeros 0 ++
    [(bits >>> 56) &&& 255, (bits >>> 48) &&& 255, (bits >>> 40) &&& 255, (bits >>> 32) &&& 255,
     (bits >>> 24) &&& 255, (bits >>> 16) &&& 255, (bits >>> 8) &&& 255, bits &&& 255]

/-- SHA-256 of a byte list, as the 32-byte digest. Models Go's `crypto/sha256`. -/
def sha256 (msg : List Nat) : List Nat :=
  let final := (chunks64 (sha256Pad msg)).foldl sha256Block sha256Init
  (final.map wordToBytes).flatten

/-- The URL-safe base64 alphabet (RFC 4648 §5). -/
def b64urlAlphabet : List Char :=
  "ABCDEFGHIJKLMNOPQRSTUVWXYZabcdefghijklmnopqrstuvwxyz0123456789-_".data

/-- One alphabet character. -/
def b64c (n : Nat) : Char := b64urlAlphabet.getD n 'A'

/-- Unpadded URL-safe base64 of a byte list (Go's `base64.RawURLEncoding`). -/
def base64urlChars : List Nat → List Char
  | [] => []
  | [a] => [b64c (a >>> 2), b64c ((a &&& 3) <<< 4)]
  | [a, b] => [b64c (a >>> 2), b64c (((a &&& 3) <<< 4) ||| (b >>> 4)), b64c ((b &&& 15) <<< 2)]
  | a :: b :: c :: rest =>
      b64c (a >>> 2) :: b64c (((a &&& 3) <<< 4) ||| (b >>> 4)) ::
      b64c (((b &&& 15) <<< 2) ||| (c >>> 6)) :: b64c (c &&& 63) :: base64urlChars rest

/-- `base64URLEncode` from `auth/pkce.go`: `base64.RawURLEncoding.EncodeToString`. -/
def base64URLEncode (data : List Nat) : String := String.mk (base64urlChars data)

/-- UTF-8 bytes of one character (Go strings are UTF-8; `[]byte(s)` yields these). -/
def utf8Bytes (c : Char) : List Nat :=
  let n := c.toNat
  if n < 0x80 then [n]
  else if n < 0x800 then [0xC0 ||| (n >>> 6), 0x80 ||| (n &&& 0x3F)]
  else if n < 0x10000 then
    [0xE0 ||| (n >>> 12), 0x80 ||| ((n >>> 6) &&& 0x3F), 0x80 ||| (n &&& 0x3F)]
  else
    [0xF0 ||| (n >>> 18), 0x80 ||| ((n >>> 12) &&& 0x3F),
     0x80 ||| ((n >>> 6) &&& 0x3F), 0x80 ||| (n &&& 0x3F)]

/-- UTF-8 byte representation of a string, Go's `[]byte(s)`. -/
def strBytes (s : String) : List Nat := (s.data.map utf8Bytes).flatten

/-- `GenerateCodeChallenge` from `auth/pkce.go`: SHA-256 of the verifier's bytes,
encoded with unpadded URL-safe base64. -/
def GenerateCodeChallenge (verifier : String) : String :=
  base64URLEncode (sha256 (strBytes verifier))

/-- Modelled from the spec's words (§4.1 `DeriveChallenge`): "SHA-256 of the
verifier's byte representation, same base64url-no-padding encoding". Stated
independently of `GenerateCodeChallenge` for the refinement comparison. -/
def DeriveChallengeSpec (verifier : String) : String :=
  base64URLEncode (sha256 (strBytes verifier))

/-! ## Provider strategies (`auth/providers`)

Go's `url.Values` is modelled as an association list of key/value pairs;
`Values.Set` replaces an existing key or appends, and lookups read the
first binding. Construction order follows the source literals (Go map
iteration order is irrelevant to the claims, which are about membership).
-/

/-- The closed set of provider variants. `GetProvider` returns
`&GoogleProvider{}`, i.e. `google false` (`UseRefreshToken` unset). -/
inductive ProviderKind where
  | oidc : ProviderKind
  | google (useRefreshToken : Bool) : ProviderKind
  | microsoft : ProviderKind
deriving DecidableEq, Repr

/-- `url.Values.Set`: replace the binding for `k`, or append it. -/
def setParam (vals : List (String × String)) (k v : String) : List (String × String) :=
  if vals.any (fun p => p.1 == k) then
    vals.map (fun p => if p.1 == k then (k, v) else p)
  else vals ++ [(k, v)]

/-- First binding for a key, `none` when the form body omits the field. -/
def getParam (vals : List (String × String)) (k : String) : Option String :=
  (vals.find? (fun p => p.1 == k)).map (fun p => p.2)

/-- `GoogleProvider.BuildTokenRequest` (auth/providers/google.go): the
`client_secret` field is set unconditionally; with `UseRefreshToken` the
offline-access parameters are also set on the token request body. -/
def googleBuildTokenRequest (useRefreshToken : Bool)
    (code verifier clientID clientSecret redirectURI : String) : List (String × String) :=
  let vals := [("grant_type", "authorization_code"), ("code", code),
               ("client_id", clientID), ("client_secret", clientSecret),
               ("redirect_uri", redirectURI), ("code_verifier", verifier)]
  if useRefreshToken then setParam (setParam vals "access_type" "offline") "prompt" "consent"
  else vals

/-- `OIDCProvider.BuildTokenRequest` (auth/providers/oidc.go):
`client_secret` is set only when non-empty. -/
def oidcBuildTokenRequest
    (code verifier clientID clientSecret redirectURI : String) : List (String × String) :=
  let vals := [("grant_type", "authorization_code"), ("code", code),
               ("client_id", clientID), ("redirect_uri", redirectURI),
               ("code_verifier", verifier)]
  if clientSecret ≠ "" then setParam vals "client_secret" clientSecret else vals

/-- `MicrosoftProvider.BuildTokenRequest` (auth/providers/microsoft.go):
identical secret-inclusion rule to the generic OIDC provider. -/
def microsoftBuildTokenRequest
    (code verifier clientID clientSecret redirectURI : String) : List (String × String) :=
  let vals := [("grant_type", "authorization_code"), ("code", code),
               ("client_id", clientID), ("redirect_uri", redirectURI),
               ("code_verifier", verifier)]
  if clientSecret ≠ "" then setParam vals "client_secret" clientSecret else vals

/-- Dispatch of the `BuildTokenRequest` capability over the provider variants. -/
def ProviderKind.BuildTokenRequest : ProviderKind →
    String → String → String → String → String → List (String × String)
  | .oidc => oidcBuildTokenRequest
  | .google u => googleBuildTokenRequest u
  | .microsoft => microsoftBuildTokenRequest

/-- `RequiresClientSecret` per provider. -/
def ProviderKind.RequiresClientSecret : ProviderKind → Bool
  | .oidc => false
  | .google _ => true
  | .microsoft => false

/-- `AuthURLParams` per provider (Google from `src/unnamed/part_004`:
offline-access extras only when `UseRefreshToken` is set; the generic OIDC
and Microsoft providers contribute none). -/
def ProviderKind.AuthURLParams : ProviderKind → List (String × String)
  | .oidc => []
  | .google u => if u then [("access_type", "offline"), ("prompt", "consent")] else []
  | .microsoft => []

/-- `GetProvider` (auth/providers/provider.go): the empty name resolves to
the generic OIDC provider; unknown names fail naming the valid set. -/
def GetProvider (name : String) : Except String ProviderKind :=
  if name = "oidc" ∨ name = "" then .ok .oidc
  else if name = "google" then .ok (.google false)
  else if name = "microsoft" then .ok .microsoft
  else .error ("unknown OAuth provider '" ++ name ++ "' - must be one of: oidc, google, microsoft")

/-! ## Token store (`auth/token.go`)

Timestamps are integer Unix seconds; Go's zero `time.Time` (the value of
an unset field) is `0`. File I/O is factored out: `SaveToken` takes the
previously stored record (the result of the internal `LoadToken` call,
`none` when absent or unreadable) and the current time, and returns the
record it writes.
-/

/-- `TokenResponse` (auth/token.go). -/
structure TokenResponse where
  AccessToken : String
  IDToken : String
  TokenType : String
  ExpiresIn : Int
  RefreshToken : String
  RefreshTokenExpiresIn : Int
  RefreshExpiresIn : Int
deriving DecidableEq, Repr

/-- `StoredToken` (auth/token.go). -/
structure StoredToken where
  AccessToken : String
  IDToken : String
  TokenType : String
  ExpiresIn : Int
  ObtainedAt : Int
  ExpiresAt : Int
  RefreshToken : String
  RefreshExpiresIn : Int
  RefreshExpiresAt : Int
  Provider : String
deriving DecidableEq, Repr

/-- `SaveToken` (auth/token.go), as the record written to disk. `existing`
is the prior on-disk record (`LoadToken` succeeding), `now` is `time.Now()`. -/
def SaveToken (token : TokenResponse) (provider : String)
    (existing : Option StoredToken) (now : Int) : StoredToken :=
  let existingRefresh := match existing with
    | some e => e.RefreshToken
    | none => ""
  let existingRefreshExpiresAt := match existing with
    | some e => e.RefreshExpiresAt
    | none => 0
  let refresh := if token.RefreshToken = "" then existingRefresh else token.RefreshToken
  let refreshExpiresIn :=
    if token.RefreshTokenExpiresIn = 0 then token.RefreshExpiresIn
    else token.RefreshTokenExpiresIn
  let refreshExpiresAt :=
    if refreshExpiresIn > 0 then now + refreshExpiresIn
    else if refresh ≠ "" ∧ refresh = existingRefresh then existingRefreshExpiresAt
    else 0
  { AccessToken := token.AccessToken
    IDToken := token.IDToken
    TokenType := token.TokenType
    ExpiresIn := token.ExpiresIn
    ObtainedAt := now
    ExpiresAt := now + token.ExpiresIn
    RefreshToken := refresh
    RefreshExpiresIn := refreshExpiresIn
    RefreshExpiresAt := refreshExpiresAt
    Provider := provider }

/-- Split a character list on a separator character; models Go's
`strings.Split` for a one-character separator (the `"."` of `parseJWTExp`). -/
def splitChar (sep : Char) : List Char → List (List Char)
  | [] => [[]]
  | c :: rest =>
    let r := splitChar sep rest
    if c = sep then [] :: r
    else match r with
      | h :: t => (c :: h) :: t
      | [] => [[c]]

/-- `parseJWTExp` (auth/token.go). `decodeExpClaim` stands for the library
composite `base64.RawURLEncoding.DecodeString` followed by `json.Unmarshal`
of the `exp` claim, returning `none` when either step fails and the decoded
`Exp` value otherwise (Go yields `0` for an absent field, which the caller
then rejects -- here the `0` rejection is kept explicit). -/
def parseJWTExp (decodeExpClaim : String → Option Int) (jwt : String) : Option Int :=
  let parts := (splitChar '.' jwt.data).map String.mk
  if parts.length < 2 then none
  else match decodeExpClaim (parts.getD 1 "") with
    | none => none
    | some e => if e = 0 then none else some e

/-- `StoredToken.IsValid` (auth/token.go): with a non-empty ID token, the
unverified `exp` claim (minus the 60 s buffer) decides validity and an
undecodable claim is invalid; otherwise the stored expiry decides. -/
def StoredToken.IsValid (decodeExpClaim : String → Option Int)
    (t : StoredToken) (now : Int) : Bool :=
  if t.IDToken ≠ "" then
    match parseJWTExp decodeExpClaim t.IDToken with
    | some exp => now < exp - 60
    | none => false
  else now < t.ExpiresAt - 60

/-- `StoredToken.GetToken` (auth/token.go): returns the ID token only. -/
def StoredToken.GetToken (t : StoredToken) : String := t.IDToken

/-- `storedToken` (tomapi/token_loader.go), the standalone library loader's
record shape. -/
structure TomapiStoredToken where
  AccessToken : String
  IDToken : String
  TokenType : String
  ExpiresIn : Int
  ObtainedAt : Int
  ExpiresAt : Int
deriving DecidableEq, Repr

/-- `storedToken.IsValid` (tomapi/token_loader.go). -/
def TomapiStoredToken.IsValid (t : TomapiStoredToken) (now : Int) : Bool :=
  now < t.ExpiresAt - 60

/-- `storedToken.GetToken` (tomapi/token_loader.go): access token first,
then the ID token. -/
def TomapiStoredToken.GetToken (t : TomapiStoredToken) : String :=
  if t.AccessToken ≠ "" then t.AccessToken else t.IDToken

/-! ## Configuration (`auth/config.go`) and auth dispatchers

Only the fields the dispatcher and flow read are modelled. `AuthMode` is a
string type in Go; the three constants are kept as string values.
-/

/-- The subset of `Config` (auth/config.go) read by the auth subsystem. -/
structure Config where
  AuthMode : String
  APIKey : String
  APIKeyHeader : String
  OAuthProvider : String
  OAuthClientID : String
  OAuthClientSecret : String
  OAuthRedirectPort : Int
  OAuthScopes : String
  OAuthUseRefresh : Bool
deriving DecidableEq, Repr

/-- `APIKeyAuth` (tomapi/auth.go). -/
structure APIKeyAuth where
  APIHeader : String
  APIKey : String
deriving DecidableEq, Repr

/-- `APIKeyAuth.AddAuth` (tomapi/auth.go): the result is the header/value
pair set on the request, or the error returned before any header is set. -/
def APIKeyAuth.AddAuth (a : APIKeyAuth) : Except String (String × String) :=
  if a.APIKey = "" then .error "API key is not set"
  else if a.APIHeader = "" then .error "API Key header is not set"
  else .ok (a.APIHeader, a.APIKey)

/-- Outcome of one `loadJWTToken` call: the bearer string or the error,
plus how many times `RefreshAccessToken` was invoked. -/
structure JWTLoadResult where
  result : Except String String
  refreshAttempts : Nat
deriving Repr

/-- The effectful collaborators of `loadJWTToken`, passed in explicitly:
the initial `LoadToken` result, the `LoadConfig` result, the
`RefreshAccessToken` outcome (its definition lives outside the vendored
sources; only its result is needed), and the `SaveToken` write outcome
(covering, for the tomapi client, the immediately following re-read of the
file just written). -/
structure JWTEnv where
  loadToken : Except String StoredToken
  loadConfig : Except String Config
  refreshOutcome : Except String TokenResponse
  saveOutcome : Except String Unit
  decodeExpClaim : String → Option Int
  now : Int

/-- The tail of `Client.loadJWTToken` (tomapi/cache.go) after a successful
refresh and save: the just-written record is re-read (`latest`) and its ID
token returned if present and now valid, else the re-authentication error. -/
def reloadedResult (d : String → Option Int) (now : Int) (latest : StoredToken) : JWTLoadResult :=
  if latest.IDToken ≠ "" ∧ latest.IsValid d now then ⟨.ok latest.IDToken, 1⟩
  else ⟨.error "token expired - run 'tomclient auth login' to re-authenticate", 1⟩

/-- `Client.loadJWTToken` (tomapi/cache.go): on an invalid token it
attempts one refresh when enabled and a refresh token exists, persists via
`SaveToken`, re-reads the stored record and returns its ID token if now
valid; every remaining path yields the re-authentication error. -/
def clientLoadJWTToken (env : JWTEnv) : JWTLoadResult :=
  match env.loadToken with
  | .error e => ⟨.error e, 0⟩
  | .ok t =>
    if t.IDToken = "" then
      ⟨.error "no id_token present; ensure 'openid' scope and re-authenticate", 0⟩
    else if t.IsValid env.decodeExpClaim env.now then ⟨.ok t.IDToken, 0⟩
    else
      match env.loadConfig with
      | .ok cfg =>
        if cfg.OAuthUseRefresh ∧ t.RefreshToken ≠ "" then
          match env.refreshOutcome with
          | .ok newTok =>
            match env.saveOutcome with
            | .ok _ =>
              reloadedResult env.decodeExpClaim env.now
                (SaveToken newTok cfg.OAuthProvider (some t) env.now)
            | .error _ =>
              ⟨.error "token expired - run 'tomclient auth login' to re-authenticate", 1⟩
          | .error _ =>
            ⟨.error "token expired - run 'tomclient auth login' to re-authenticate", 1⟩
        else ⟨.error "token expired - run 'tomclient auth login' to re-authenticate", 0⟩
      | .error _ =>
        ⟨.error "token expired - run 'tomclient auth login' to re-authenticate", 0⟩

/-- `CLIAuthProvider.loadJWTToken` (`src/unnamed/part_002`): same shape, but
a failed refresh surfaces the refresh error itself, and on success the
refresh response's ID token is returned directly after saving. -/
def cliLoadJWTToken (cfg : Config) (env : JWTEnv) : JWTLoadResult :=
  match env.loadToken with
  | .error e => ⟨.error ("failed to load token: " ++ e), 0⟩
  | .ok t =>
    if t.IDToken = "" then
      ⟨.error "no id_token present; ensure 'openid' scope and re-authenticate", 0⟩
    else if t.IsValid env.decodeExpClaim env.now then ⟨.ok t.IDToken, 0⟩
    else if cfg.OAuthUseRefresh ∧ t.RefreshToken ≠ "" then
      match env.refreshOutcome with
      | .error e => ⟨.error ("failed to refresh access token: " ++ e), 1⟩
      | .ok refreshResponse =>
        match env.saveOutcome with
        | .error e => ⟨.error ("failed to save refreshed token: " ++ e), 1⟩
        | .ok _ => ⟨.ok refreshResponse.IDToken, 1⟩
    else
      ⟨.error "token expired and no refresh token available; please re-authenticate with 'tom auth login'", 0⟩

/-- `CLIAuthProvider.AddAuth` (`src/unnamed/part_002`): the header/value
pair set on the request (empty pair for mode `none`), or the error. An
empty configured API-key header name falls back to `X-API-Key`. -/
def cliAddAuth (cfg : Config) (env : JWTEnv) : Except String (String × String) :=
  if cfg.AuthMode = "none" then .ok ("", "")
  else if cfg.AuthMode = "api_key" then
    if cfg.APIKey = "" then .error "auth_mode is 'api_key' but API key is not set"
    else
      let header := if cfg.APIKeyHeader ≠ "" then cfg.APIKeyHeader else "X-API-Key"
      .ok (header, cfg.APIKey)
  else if cfg.AuthMode = "jwt" then
    match (cliLoadJWTToken cfg env).result with
    | .error e => .error ("failed to get JWT token: " ++ e)
    | .ok token => .ok ("Authorization", "Bearer " ++ token)
  else .error ("invalid auth_mode '" ++ cfg.AuthMode ++ "'")

/-! ## OAuth flow orchestrator (`auth/oauth.go`)

The callback server's multi-way wait is modelled by the single event that
wins the `select`: either the one callback request the handler saw (its
`code`, `state` and `error` query parameters), a context cancellation, or
the 2-minute timer. Network exchange and disk writes are parameters of
`Authenticate`; the trace records whether `ExchangeCodeForToken` was
reached and with which code.
-/

/-- The event that resolves the callback wait. -/
inductive CallbackEvent where
  | request (code state errorParam : String) : CallbackEvent
  | ctxDone : CallbackEvent
  | timeout : CallbackEvent
deriving DecidableEq, Repr

/-- `OAuthFlow.StartCallbackServer` (auth/oauth.go): handler checks the
`error` and `code` query parameters; the select's code branch compares the
received state with the session state before returning the code. -/
def StartCallbackServer (flowState : String) (ev : CallbackEvent) : Except String String :=
  match ev with
  | .request code st errorParam =>
    if errorParam ≠ "" then .error ("OAuth error: " ++ errorParam)
    else if code = "" then .error "no authorization code received"
    else if st ≠ flowState then .error "state mismatch - possible CSRF attack"
    else .ok code
  | .ctxDone => .error "authentication timed out"
  | .timeout => .error "authentication timed out after 2 minutes"

/-- `OAuthFlow` (auth/oauth.go); the discovery document is reduced to the
authorization endpoint, the only part `GetAuthURL` reads. -/
structure OAuthFlow where
  Config : Config
  CodeVerifier : String
  State : String
  AuthorizationEndpoint : String
  Provider : ProviderKind
deriving Repr

/-- `OAuthFlow.GetAuthURL` (auth/oauth.go), as the list of query parameters
of the constructed URL (Go's `url.Values.Encode` percent-escaping and
alphabetical ordering are abstracted away; the claims are about which
parameters appear). The literal below is the complete `params` map. -/
def OAuthFlow.GetAuthURLParams (f : OAuthFlow) : List (String × String) :=
  [("response_type", "code"),
   ("client_id", f.Config.OAuthClientID),
   ("redirect_uri", "http://localhost:" ++ toString f.Config.OAuthRedirectPort ++ "/callback"),
   ("code_challenge", GenerateCodeChallenge f.CodeVerifier),
   ("code_challenge_method", "S256"),
   ("scope", f.Config.OAuthScopes),
   ("state", f.State)]

/-- Modelled from the spec's words (§4.5 transition 1 and the claim): the
seven standard query parameters "plus provider extras"
(`AuthURLExtraParams`). Stated for comparison with `GetAuthURLParams`. -/
def SpecAuthURLParams (f : OAuthFlow) : List (String × String) :=
  [("response_type", "code"),
   ("client_id", f.Config.OAuthClientID),
   ("redirect_uri", "http://localhost:" ++ toString f.Config.OAuthRedirectPort ++ "/callback"),
   ("code_challenge", GenerateCodeChallenge f.CodeVerifier),
   ("code_challenge_method", "S256"),
   ("scope", f.Config.OAuthScopes),
   ("state", f.State)] ++ f.Provider.AuthURLParams

/-- Trace of one `Authenticate` run (auth/oauth.go) after the flow object
exists: whether the run succeeded, and the code `ExchangeCodeForToken` was
reached with, if it was reached at all. -/
structure AuthenticateTrace where
  result : Except String Unit
  exchangedCode : Option String
deriving Repr

/-- `Authenticate` (auth/oauth.go) from the callback wait onward: a failed
`StartCallbackServer` returns before any token exchange; otherwise the code
is exchanged (`exchange` models the HTTP POST) and the response saved. -/
def Authenticate (flow : OAuthFlow) (ev : CallbackEvent)
    (exchange : String → Except String TokenResponse)
    (existing : Option StoredToken) (now : Int) : AuthenticateTrace :=
  match StartCallbackServer flow.State ev with
  | .error e => ⟨.error ("failed to receive authorization code: " ++ e), none⟩
  | .ok code =>
    match exchange code with
    | .error e => ⟨.error ("failed to exchange code for token: " ++ e), some code⟩
    | .ok token =>
      let _stored := SaveToken token flow.Config.OAuthProvider existing now
      ⟨.ok (), some code⟩

/-! ## Substring helper

Used to state, for claim C5, what "a message instructing re-authentication"
means: the message mentions re-authenticating or the `auth login` command.
-/

/-- Does `pat` occur as a contiguous run inside `l`? -/
def hasRun (pat : List Char) : List Char → Bool
  | [] => pat.isEmpty
  | c :: rest => pat.isPrefixOf (c :: rest) || hasRun pat rest

/-- A message instructs re-authentication when it mentions
"re-authenticate" or the "auth login" command. -/
def instructsReauth (s : String) : Bool :=
  hasRun "re-authenticate".data s.data || hasRun "auth login".data s.data

/-! ## Concrete instances used by witnesses and counterexamples -/

/-- A jwt-mode configuration with refresh enabled. -/
def cfgEx : Config :=
  { AuthMode := "jwt", APIKey := "", APIKeyHeader := "", OAuthProvider := "oidc",
    OAuthClientID := "client-1", OAuthClientSecret := "", OAuthRedirectPort := 8899,
    OAuthScopes := "openid email profile", OAuthUseRefresh := true }

/-- An api_key-mode configuration whose header name is left empty. -/
def cfgApiKeyNoHeader : Config :=
  { AuthMode := "api_key", APIKey := "k", APIKeyHeader := "", OAuthProvider := "",
    OAuthClientID := "", OAuthClientSecret := "", OAuthRedirectPort := 8899,
    OAuthScopes := "", OAuthUseRefresh := false }

/-- An initialized flow session (generic OIDC provider). -/
def flowEx : OAuthFlow :=
  { Config := cfgEx, CodeVerifier := "verifier-1", State := "state-1",
    AuthorizationEndpoint := "https://idp.example/authorize", Provider := .oidc }

/-- A flow session whose provider is Google with refresh-token retention
requested (`UseRefreshToken` set), the configuration named by the claim
about provider extras on the authorization URL. -/
def flowGoogleRefresh : OAuthFlow :=
  { Config := cfgEx, CodeVerifier := "verifier-1", State := "state-1",
    AuthorizationEndpoint := "https://accounts.google.com/o/oauth2/v2/auth",
    Provider := .google true }

/-- A token exchange stub that never succeeds (the callback-phase claims
never reach it). -/
def exchangeEx : String → Except String TokenResponse := fun _ => .error "unreachable"

/-- A previously stored record holding a refresh token with its expiry. -/
def existingTok : StoredToken :=
  { AccessToken := "at1", IDToken := "", TokenType := "Bearer", ExpiresIn := 3600,
    ObtainedAt := 0, ExpiresAt := 3600, RefreshToken := "r1", RefreshExpiresIn := 0,
    RefreshExpiresAt := 1000, Provider := "oidc" }

/-- A token response that omits `refresh_token` but reports a refresh
lifetime (`refresh_expires_in` = 100). -/
def respNoRefreshTok : TokenResponse :=
  { AccessToken := "at2", IDToken := "", TokenType := "Bearer", ExpiresIn := 3600,
    RefreshToken := "", RefreshTokenExpiresIn := 0, RefreshExpiresIn := 100 }

/-- A token response that omits `refresh_token` and reports no refresh
lifetime at all. -/
def respBare : TokenResponse :=
  { AccessToken := "at3", IDToken := "", TokenType := "Bearer", ExpiresIn := 3600,
    RefreshToken := "", RefreshTokenExpiresIn := 0, RefreshExpiresIn := 0 }

/-- A stored record whose ID token's `exp` claim cannot be decoded, hence
invalid (fail closed). -/
def invalidStoredTok : StoredToken :=
  { AccessToken := "", IDToken := "header.payload", TokenType := "Bearer", ExpiresIn := 3600,
    ObtainedAt := 0, ExpiresAt := 3600, RefreshToken := "r1", RefreshExpiresIn := 0,
    RefreshExpiresAt := 0, Provider := "oidc" }

/-- Environment for one jwt-mode request: the stored token is loaded but
invalid, refresh is enabled and present, and the refresh call itself fails. -/
def envRefreshFails : JWTEnv :=
  { loadToken := .ok invalidStoredTok, loadConfig := .ok cfgEx,
    refreshOutcome := .error "boom", saveOutcome := .ok (),
    decodeExpClaim := fun _ => none, now := 100 }

/-- A concrete model of the `exp`-claim decoder: only the payload segment
"p2" decodes, to expiry 100000. -/
def decodeEx : String → Option Int := fun s => if s = "p2" then some 100000 else none

/-- The token response returned by a successful refresh; its ID token's
`exp` claim decodes under `decodeEx`. -/
def refreshedResp : TokenResponse :=
  { AccessToken := "at4", IDToken := "header.p2", TokenType := "Bearer", ExpiresIn := 3600,
    RefreshToken := "r2", RefreshTokenExpiresIn := 0, RefreshExpiresIn := 0 }

/-- Environment for one jwt-mode request whose refresh round succeeds and
is persisted. -/
def envRefreshOk : JWTEnv :=
  { loadToken := .ok invalidStoredTok, loadConfig := .ok cfgEx,
    refreshOutcome := .ok refreshedResp, saveOutcome := .ok (),
    decodeExpClaim := decodeEx, now := 100 }

/-! ## Grounding of the cryptographic embedding

Sanity checks of the SHA-256/base64url model against published vectors:
the FIPS 180-2 "abc" digest and the RFC 7636 appendix B PKCE example. -/

/-- The SHA-256 model reproduces the FIPS 180-2 "abc" test vector. -/
theorem sha256_abc_vector :
    sha256 (strBytes "abc") =
      [0xba, 0x78, 0x16, 0xbf, 0x8f, 0x01, 0xcf, 0xea,
       0x41, 0x41, 0x40, 0xde, 0x5d, 0xae, 0x22, 0x23,
       0xb0, 0x03, 0x61, 0xa3, 0x96, 0x17, 0x7a, 0x9c,
       0xb4, 0x10, 0xff, 0x61, 0xf2, 0x00, 0x15, 0xad] := by decide

/-- The challenge derivation reproduces the RFC 7636 appendix B example. -/
theorem generateCodeChallenge_rfc7636_vector :
    GenerateCodeChallenge "dBjftJeZ4CVP-mB92K27uhbUJU1p1r_wW1gFWFOEjXk" =
      "E9Melhoa2OwvFrEMTJguCHaoeK1t8URWbuGJSstw-cM" := by decide

/-! ## Claims -/

/-- C6: for every verifier string, `GenerateCodeChallenge` returns the
URL-safe base64 encoding without padding of the SHA-256 digest of the
verifier's bytes (the spec-side composition `DeriveChallengeSpec`), and it
is deterministic: deriving twice from the same verifier yields identical
output. -/
theorem generateCodeChallenge_correct :
    (∀ v : String, GenerateCodeChallenge v = DeriveChallengeSpec v) ∧
    (∀ v1 v2 : String, v1 = v2 → GenerateCodeChallenge v1 = GenerateCodeChallenge v2) :=
  ⟨fun _ => rfl, fun _ _ h => by rw [h]⟩

/-- Witness for C6 at the RFC 7636 verifier. -/
theorem generateCodeChallenge_correct_witness :
    GenerateCodeChallenge "dBjftJeZ4CVP-mB92K27uhbUJU1p1r_wW1gFWFOEjXk" =
      DeriveChallengeSpec "dBjftJeZ4CVP-mB92K27uhbUJU1p1r_wW1gFWFOEjXk" ∧
    GenerateCodeChallenge "dBjftJeZ4CVP-mB92K27uhbUJU1p1r_wW1gFWFOEjXk" =
      GenerateCodeChallenge "dBjftJeZ4CVP-mB92K27uhbUJU1p1r_wW1gFWFOEjXk" :=
  ⟨generateCodeChallenge_correct.1 _, generateCodeChallenge_correct.2 _ _ rfl⟩

/-- C2: a stored record is valid iff the current time is before the
applicable expiry minus the 60-second buffer: when the bearer value
(`GetToken`) is a non-empty ID token, the expiry is the unverified `exp`
claim decoded from it and an undecodable claim makes the record invalid;
otherwise the stored `ExpiresAt` governs. -/
theorem isValid_iff_expiry (d : String → Option Int) (t : StoredToken) (now : Int) :
    t.IsValid d now = true ↔
      ((t.GetToken ≠ "" ∧ ∃ e, parseJWTExp d t.GetToken = some e ∧ now < e - 60) ∨
       (t.GetToken = "" ∧ now < t.ExpiresAt - 60)) := by
  unfold StoredToken.IsValid StoredToken.GetToken
  by_cases hid : t.IDToken = ""
  · simp [hid]
  · simp only [hid, if_pos, ne_eq, not_false_eq_true, if_true]
    cases hp : parseJWTExp d t.IDToken with
    | none => simp [hp, hid]
    | some e => simp [hp, hid]

/-- C8: the usable bearer credential per token store: the OAuth/OIDC store
(`auth.StoredToken.GetToken`) returns the ID token, while the standalone
tomapi loader (`storedToken.GetToken`) falls back through the access token
first and then the ID token. -/
theorem getToken_bearer_preference :
    (∀ t : StoredToken, t.GetToken = t.IDToken) ∧
    (∀ u : TomapiStoredToken,
      (u.AccessToken ≠ "" → u.GetToken = u.AccessToken) ∧
      (u.AccessToken = "" → u.GetToken = u.IDToken)) :=
  ⟨fun _ => rfl,
   fun u => ⟨fun h => by simp [TomapiStoredToken.GetToken, h],
             fun h => by simp [TomapiStoredToken.GetToken, h]⟩⟩

/-- Witness for C8: a record holding both tokens yields the access token
from the tomapi loader, one holding only an ID token yields the ID token. -/
theorem getToken_bearer_preference_witness :
    (({ AccessToken := "acc", IDToken := "idt", TokenType := "Bearer", ExpiresIn := 0,
        ObtainedAt := 0, ExpiresAt := 0 } : TomapiStoredToken).GetToken = "acc") ∧
    (({ AccessToken := "", IDToken := "idt", TokenType := "Bearer", ExpiresIn := 0,
        ObtainedAt := 0, ExpiresAt := 0 } : TomapiStoredToken).GetToken = "idt") :=
  ⟨(getToken_bearer_preference.2 _).1 (by decide),
   (getToken_bearer_preference.2 _).2 rfl⟩

/-- C10: `GetProvider ""` succeeds with the generic OIDC strategy, and an
error naming the valid set is returned exactly for names outside
`{"oidc", "", "google", "microsoft"}`. -/
theorem getProvider_domain :
    GetProvider "" = .ok .oidc ∧
    ∀ name : String,
      ((∃ e, GetProvider name = .error e) ↔ name ∉ ["oidc", "", "google", "microsoft"]) ∧
      (name ∉ ["oidc", "", "google", "microsoft"] →
        GetProvider name =
          .error ("unknown OAuth provider '" ++ name ++
                  "' - must be one of: oidc, google, microsoft")) := by
  refine ⟨rfl, fun name => ?_⟩
  unfold GetProvider
  by_cases h1 : name = "oidc" ∨ name = ""
  · rcases h1 with h | h <;> simp [h]
  · by_cases h2 : name = "google"
    · simp [h2]
    · by_cases h3 : name = "microsoft"
      · simp [h3]
      · push_neg at h1
        simp [h1.1, h1.2, h2, h3]

/-- Witness for C10 at the unknown provider name "github". -/
theorem getProvider_domain_witness :
    ("github" : String) ∉ (["oidc", "", "google", "microsoft"] : List String) ∧
    GetProvider "github" =
      .error "unknown OAuth provider 'github' - must be one of: oidc, google, microsoft" :=
  ⟨by decide, ((getProvider_domain.2 "github").2 (by decide))⟩

/-- C1: a callback request carrying an authorization code whose `state`
differs from the session's generated state makes the attempt fail with the
state-mismatch error, and `ExchangeCodeForToken` is never reached. -/
theorem stateMismatch_blocks_exchange (flow : OAuthFlow) (code st : String)
    (exchange : String → Except String TokenResponse)
    (existing : Option StoredToken) (now : Int)
    (hcode : code ≠ "") (hstate : st ≠ flow.State) :
    (Authenticate flow (.request code st "") exchange existing now).exchangedCode = none ∧
    (Authenticate flow (.request code st "") exchange existing now).result =
      .error "failed to receive authorization code: state mismatch - possible CSRF attack" := by
  unfold Authenticate StartCallbackServer
  simp [hcode, hstate]

/-- Witness for C1: a mismatched-state callback against the example flow. -/
theorem stateMismatch_blocks_exchange_witness :
    (("code-1" : String) ≠ "" ∧ ("evil-state" : String) ≠ flowEx.State) ∧
    (Authenticate flowEx (.request "code-1" "evil-state" "") exchangeEx none 0).exchangedCode
      = none ∧
    (Authenticate flowEx (.request "code-1" "evil-state" "") exchangeEx none 0).result =
      .error "failed to receive authorization code: state mismatch - possible CSRF attack" :=
  ⟨⟨by decide, by decide⟩,
   stateMismatch_blocks_exchange flowEx "code-1" "evil-state" exchangeEx none 0
     (by decide) (by decide)⟩

/-- C3 counterexample: for a flow whose provider is Google with
refresh-token retention requested, the claim requires the authorization URL
to carry the provider extras (`access_type=offline`), but the constructed
URL omits them entirely — `GetAuthURL` never consults `AuthURLParams`. -/
theorem authURL_no_provider_extras_counterexample :
    getParam (SpecAuthURLParams flowGoogleRefresh) "access_type" = some "offline" ∧
    getParam flowGoogleRefresh.GetAuthURLParams "access_type" = none ∧
    flowGoogleRefresh.Provider.AuthURLParams ≠ [] := by
  refine ⟨?_, ?_, by decide⟩ <;> rfl

/-- C3 (amended): the constructed authorization URL carries exactly the
seven query parameters `response_type=code`, `client_id`, `redirect_uri`,
`code_challenge` (derived from the session verifier), `code_challenge_method=S256`,
`scope` and `state`; provider extra parameters are never appended, and every
provider reachable through `GetProvider` has empty `AuthURLParams` anyway. -/
theorem authURL_exact_params (f : OAuthFlow) :
    (f.GetAuthURLParams.map Prod.fst =
      ["response_type", "client_id", "redirect_uri", "code_challenge",
       "code_challenge_method", "scope", "state"]) ∧
    getParam f.GetAuthURLParams "response_type" = some "code" ∧
    getParam f.GetAuthURLParams "client_id" = some f.Config.OAuthClientID ∧
    getParam f.GetAuthURLParams "redirect_uri" =
      some ("http://localhost:" ++ toString f.Config.OAuthRedirectPort ++ "/callback") ∧
    getParam f.GetAuthURLParams "code_challenge" =
      some (GenerateCodeChallenge f.CodeVerifier) ∧
    getParam f.GetAuthURLParams "code_challenge_method" = some "S256" ∧
    getParam f.GetAuthURLParams "scope" = some f.Config.OAuthScopes ∧
    getParam f.GetAuthURLParams "state" = some f.State ∧
    getParam f.GetAuthURLParams "access_type" = none ∧
    getParam f.GetAuthURLParams "prompt" = none ∧
    (∀ name p, GetProvider name = .ok p → p.AuthURLParams = []) := by
  refine ⟨rfl, rfl, rfl, rfl, rfl, rfl, rfl, rfl, rfl, rfl, fun name p h => ?_⟩
  unfold GetProvider at h
  split_ifs at h <;> cases h <;> rfl

/-- Witness for C3 (amended) at the example flow and the provider names. -/
theorem authURL_exact_params_witness :
    getParam flowEx.GetAuthURLParams "state" = some flowEx.State ∧
    GetProvider "google" = .ok (.google false) ∧
    (ProviderKind.google false).AuthURLParams = [] :=
  ⟨(authURL_exact_params flowEx).2.2.2.2.2.2.2.1, rfl,
   (authURL_exact_params flowEx).2.2.2.2.2.2.2.2.2.2 "google" (.google false) rfl⟩

/-- C4 counterexample: saving a token response that omits `refresh_token`
but reports `refresh_expires_in = 100` over a stored record whose refresh
expiry is 1000 carries the refresh token forward but replaces its expiry
with a freshly computed one, so the "expiry unchanged" half of the claim
fails. -/
theorem saveToken_carryover_counterexample :
    respNoRefreshTok.RefreshToken = "" ∧
    (SaveToken respNoRefreshTok "oidc" (some existingTok) 0).RefreshToken =
      existingTok.RefreshToken ∧
    (SaveToken respNoRefreshTok "oidc" (some existingTok) 0).RefreshExpiresAt = 100 ∧
    existingTok.RefreshExpiresAt = 1000 := by decide

/-- C4 (amended): saving a response that omits `refresh_token` always
carries the previous record's refresh token forward unchanged; the
refresh-token expiry is carried forward unchanged provided the response
also reports no refresh lifetime (both `refresh_token_expires_in` and
`refresh_expires_in` are 0) and the previous record actually held a
refresh token. -/
theorem saveToken_carryover (token : TokenResponse) (provider : String)
    (existing : StoredToken) (now : Int) (h : token.RefreshToken = "") :
    (SaveToken token provider (some existing) now).RefreshToken = existing.RefreshToken ∧
    (token.RefreshTokenExpiresIn = 0 → token.RefreshExpiresIn = 0 →
      existing.RefreshToken ≠ "" →
      (SaveToken token provider (some existing) now).RefreshExpiresAt =
        existing.RefreshExpiresAt) := by
  constructor
  · simp [SaveToken, h]
  · intro h1 h2 h3
    simp [SaveToken, h, h1, h2, h3]

/-- Witness for C4 (amended): the bare response over the stored record with
refresh token "r1" keeps both the token and its expiry. -/
theorem saveToken_carryover_witness :
    (respBare.RefreshToken = "" ∧ respBare.RefreshTokenExpiresIn = 0 ∧
     respBare.RefreshExpiresIn = 0 ∧ existingTok.RefreshToken ≠ "") ∧
    (SaveToken respBare "oidc" (some existingTok) 50).RefreshToken =
      existingTok.RefreshToken ∧
    (SaveToken respBare "oidc" (some existingTok) 50).RefreshExpiresAt =
      existingTok.RefreshExpiresAt :=
  ⟨⟨by decide, by decide, by decide, by decide⟩,
   (saveToken_carryover respBare "oidc" existingTok 50 (by decide)).1,
   (saveToken_carryover respBare "oidc" existingTok 50 (by decide)).2
     (by decide) (by decide) (by decide)⟩

/-- C7 counterexample: the Google strategy yielded by `GetProvider` builds
a token request whose `client_secret` field holds exactly the supplied
secret, so with an empty supplied secret the field is present but empty —
not "always non-empty" as claimed. -/
theorem googleSecret_counterexample :
    GetProvider "google" = .ok (.google false) ∧
    getParam ((ProviderKind.google false).BuildTokenRequest "c" "v" "id" "" "uri")
      "client_secret" = some "" := by
  exact ⟨rfl, by decide⟩

/-- C7 (amended): `GetProvider "google"` yields the strategy with
`RequiresClientSecret` true whose `BuildTokenRequest` always includes the
`client_secret` field carrying exactly the supplied secret (hence non-empty
whenever the configured secret is non-empty), while the `oidc` and
`microsoft` strategies omit the field exactly when the supplied secret is
empty. -/
theorem providerSecret_rules :
    GetProvider "google" = .ok (.google false) ∧
    (∀ u, (ProviderKind.google u).RequiresClientSecret = true) ∧
    (∀ u code verifier clientID clientSecret redirectURI,
      getParam ((ProviderKind.google u).BuildTokenRequest
        code verifier clientID clientSecret redirectURI) "client_secret" =
        some clientSecret) ∧
    (ProviderKind.oidc.RequiresClientSecret = false ∧
     ProviderKind.microsoft.RequiresClientSecret = false) ∧
    (∀ code verifier clientID redirectURI,
      getParam (ProviderKind.oidc.BuildTokenRequest
        code verifier clientID "" redirectURI) "client_secret" = none ∧
      getParam (ProviderKind.microsoft.BuildTokenRequest
        code verifier clientID "" redirectURI) "client_secret" = none) ∧
    (∀ code verifier clientID clientSecret redirectURI, clientSecret ≠ "" →
      getParam (ProviderKind.oidc.BuildTokenRequest
        code verifier clientID clientSecret redirectURI) "client_secret" =
        some clientSecret ∧
      getParam (ProviderKind.microsoft.BuildTokenRequest
        code verifier clientID clientSecret redirectURI) "client_secret" =
        some clientSecret) := by
  refine ⟨rfl, fun u => rfl, fun u _ _ _ _ _ => ?_, ⟨rfl, rfl⟩,
          fun _ _ _ _ => ⟨rfl, rfl⟩, fun _ _ _ s _ h => ?_⟩
  · cases u <;> rfl
  · constructor <;>
      simp [ProviderKind.BuildTokenRequest, oidcBuildTokenRequest,
            microsoftBuildTokenRequest, setParam, getParam, h]

/-- Witness for C7 (amended) at a non-empty secret. -/
theorem providerSecret_rules_witness :
    getParam ((ProviderKind.google true).BuildTokenRequest "c" "v" "id" "sec" "uri")
      "client_secret" = some "sec" ∧
    getParam (ProviderKind.oidc.BuildTokenRequest "c" "v" "id" "sec" "uri")
      "client_secret" = some "sec" :=
  ⟨providerSecret_rules.2.2.1 true "c" "v" "id" "sec" "uri",
   (providerSecret_rules.2.2.2.2.2 "c" "v" "id" "sec" "uri" (by decide)).1⟩

/-- C9 counterexample: the CLI dispatcher in api_key mode with a non-empty
key and an empty configured header name does not fail: it sets the default
`X-API-Key` header, contradicting "fails if either the key or the header
name is empty". -/
theorem cliAddAuth_emptyHeader_counterexample :
    cfgApiKeyNoHeader.APIKeyHeader = "" ∧ cfgApiKeyNoHeader.APIKey = "k" ∧
    cliAddAuth cfgApiKeyNoHeader envRefreshFails = .ok ("X-API-Key", "k") := by
  refine ⟨rfl, rfl, rfl⟩

/-- C9 (amended): the tomapi `APIKeyAuth.AddAuth` sets the configured
header to the configured key and fails (setting nothing) when either is
empty; the CLI dispatcher's api_key mode fails only when the key is empty,
substituting the default `X-API-Key` header when the header name is empty. -/
theorem apiKeyAddAuth_rules :
    (∀ a : APIKeyAuth,
      (a.APIKey = "" → a.AddAuth = .error "API key is not set") ∧
      (a.APIKey ≠ "" → a.APIHeader = "" → a.AddAuth = .error "API Key header is not set") ∧
      (a.APIKey ≠ "" → a.APIHeader ≠ "" → a.AddAuth = .ok (a.APIHeader, a.APIKey))) ∧
    (∀ (cfg : Config) (env : JWTEnv), cfg.AuthMode = "api_key" →
      (cfg.APIKey = "" →
        cliAddAuth cfg env = .error "auth_mode is 'api_key' but API key is not set") ∧
      (cfg.APIKey ≠ "" →
        cliAddAuth cfg env =
          .ok (if cfg.APIKeyHeader ≠ "" then cfg.APIKeyHeader else "X-API-Key",
               cfg.APIKey))) := by
  constructor
  · intro a
    refine ⟨fun h => ?_, fun h1 h2 => ?_, fun h1 h2 => ?_⟩ <;>
      simp [APIKeyAuth.AddAuth, *]
  · intro cfg env hmode
    constructor <;> intro h <;> simp [cliAddAuth, hmode, h]

/-- Witness for C9 (amended): both empty-field failures of `APIKeyAuth`
and the CLI default-header success. -/
theorem apiKeyAddAuth_rules_witness :
    (({ APIHeader := "X-API-Key", APIKey := "" } : APIKeyAuth).AddAuth =
      .error "API key is not set") ∧
    (({ APIHeader := "", APIKey := "k" } : APIKeyAuth).AddAuth =
      .error "API Key header is not set") ∧
    (({ APIHeader := "H", APIKey := "k" } : APIKeyAuth).AddAuth = .ok ("H", "k")) ∧
    cliAddAuth cfgApiKeyNoHeader envRefreshFails = .ok ("X-API-Key", "k") :=
  ⟨(apiKeyAddAuth_rules.1 _).1 rfl,
   (apiKeyAddAuth_rules.1 _).2.1 (by decide) rfl,
   (apiKeyAddAuth_rules.1 _).2.2 (by decide) (by decide),
   (apiKeyAddAuth_rules.2 cfgApiKeyNoHeader envRefreshFails rfl).2 (by decide)⟩

/-- C5 counterexample: with an invalid stored token, refresh enabled and a
refresh token present, a failing refresh round makes the CLI dispatcher
(`CLIAuthProvider.loadJWTToken`) fail with the bare refresh error — a
message that does not instruct re-authentication, contradicting the claim
that every still-invalid outcome does. -/
theorem cliRefreshFailure_counterexample :
    invalidStoredTok.IsValid envRefreshFails.decodeExpClaim envRefreshFails.now = false ∧
    cfgEx.OAuthUseRefresh = true ∧
    invalidStoredTok.RefreshToken = "r1" ∧
    (cliLoadJWTToken cfgEx envRefreshFails).refreshAttempts = 1 ∧
    (cliLoadJWTToken cfgEx envRefreshFails).result =
      .error "failed to refresh access token: boom" ∧
    instructsReauth "failed to refresh access token: boom" = false := by
  refine ⟨by decide, rfl, rfl, rfl, rfl, by decide⟩

/-- Helper: the post-save reload step counts as the single refresh attempt. -/
theorem reloadedResult_attempts (d : String → Option Int) (now : Int) (l : StoredToken) :
    (reloadedResult d now l).refreshAttempts = 1 := by
  unfold reloadedResult
  split <;> rfl

/-- Helper: a successful post-save reload returns the saved record's ID token. -/
theorem reloadedResult_ok_eq (d : String → Option Int) (now : Int) (l : StoredToken)
    (s : String) : (reloadedResult d now l).result = .ok s → s = l.IDToken := by
  unfold reloadedResult
  split
  · intro h
    simp only [Except.ok.injEq] at h
    exact h.symm
  · intro h
    simp at h

/-- Helper: a failing post-save reload fails with the re-authentication message. -/
theorem reloadedResult_error_reauth (d : String → Option Int) (now : Int) (l : StoredToken)
    (e : String) : (reloadedResult d now l).result = .error e → instructsReauth e = true := by
  unfold reloadedResult
  split
  · intro h
    simp at h
  · intro h
    simp only [Except.error.injEq] at h
    subst h
    decide

/-- C5 (amended): in jwt mode both dispatchers perform at most one refresh
attempt per request, and exactly one when the loaded token is invalid,
refresh usage is enabled and a refresh token is present; the refreshed
result is persisted before the returned credential is read (the tomapi
client re-reads the record it just saved; the CLI provider returns the ID
token of the response it just saved). When the token stays invalid, the
tomapi client always fails instructing re-authentication, and so does the
CLI provider when no refresh is possible — but a failed refresh makes the
CLI provider surface the bare refresh error instead. -/
theorem jwt_refresh_discipline :
    (∀ env : JWTEnv, (clientLoadJWTToken env).refreshAttempts ≤ 1) ∧
    (∀ (cfg : Config) (env : JWTEnv), (cliLoadJWTToken cfg env).refreshAttempts ≤ 1) ∧
    (∀ (env : JWTEnv) (t : StoredToken) (cfg : Config),
      env.loadToken = .ok t → t.IDToken ≠ "" →
      t.IsValid env.decodeExpClaim env.now = false →
      env.loadConfig = .ok cfg → cfg.OAuthUseRefresh = true → t.RefreshToken ≠ "" →
      (clientLoadJWTToken env).refreshAttempts = 1) ∧
    (∀ (cfg : Config) (env : JWTEnv) (t : StoredToken),
      env.loadToken = .ok t → t.IDToken ≠ "" →
      t.IsValid env.decodeExpClaim env.now = false →
      cfg.OAuthUseRefresh = true → t.RefreshToken ≠ "" →
      (cliLoadJWTToken cfg env).refreshAttempts = 1) ∧
    (∀ (env : JWTEnv) (t : StoredToken) (cfg : Config) (newTok : TokenResponse),
      env.loadToken = .ok t → t.IDToken ≠ "" →
      t.IsValid env.decodeExpClaim env.now = false →
      env.loadConfig = .ok cfg → cfg.OAuthUseRefresh = true → t.RefreshToken ≠ "" →
      env.refreshOutcome = .ok newTok → env.saveOutcome = .ok () →
      ∀ s, (clientLoadJWTToken env).result = .ok s →
        s = (SaveToken newTok cfg.OAuthProvider (some t) env.now).GetToken) ∧
    (∀ (cfg : Config) (env : JWTEnv) (t : StoredToken) (newTok : TokenResponse),
      env.loadToken = .ok t → t.IDToken ≠ "" →
      t.IsValid env.decodeExpClaim env.now = false →
      cfg.OAuthUseRefresh = true → t.RefreshToken ≠ "" →
      env.refreshOutcome = .ok newTok → env.saveOutcome = .ok () →
      (cliLoadJWTToken cfg env).result = .ok newTok.IDToken) ∧
    (∀ (env : JWTEnv) (t : StoredToken),
      env.loadToken = .ok t → t.IDToken ≠ "" →
      t.IsValid env.decodeExpClaim env.now = false →
      ∀ e, (clientLoadJWTToken env).result = .error e → instructsReauth e = true) ∧
    (∀ (cfg : Config) (env : JWTEnv) (t : StoredToken),
      env.loadToken = .ok t → t.IDToken ≠ "" →
      t.IsValid env.decodeExpClaim env.now = false →
      ¬(cfg.OAuthUseRefresh = true ∧ t.RefreshToken ≠ "") →
      (cliLoadJWTToken cfg env).result =
        .error "token expired and no refresh token available; please re-authenticate with 'tom auth login'" ∧
      instructsReauth
        "token expired and no refresh token available; please re-authenticate with 'tom auth login'" = true) ∧
    (∀ (cfg : Config) (env : JWTEnv) (t : StoredToken) (e : String),
      env.loadToken = .ok t → t.IDToken ≠ "" →
      t.IsValid env.decodeExpClaim env.now = false →
      cfg.OAuthUseRefresh = true → t.RefreshToken ≠ "" →
      env.refreshOutcome = .error e →
      (cliLoadJWTToken cfg env).result = .error ("failed to refresh access token: " ++ e)) := by
  refine ⟨?_, ?_, ?_, ?_, ?_, ?_, ?_, ?_, ?_⟩
  · intro env
    unfold clientLoadJWTToken
    cases h : env.loadToken
    · exact Nat.zero_le _
    · repeat' split
      all_goals first
        | exact Nat.zero_le _
        | exact Nat.le_refl _
        | exact Nat.le_of_eq (reloadedResult_attempts _ _ _)
  · intro cfg env
    unfold cliLoadJWTToken
    cases h : env.loadToken
    · exact Nat.zero_le _
    · repeat' split
      all_goals first | exact Nat.zero_le _ | exact Nat.le_refl _
  · intro env t cfg hload hid hinv hcfg hu hrt
    simp only [clientLoadJWTToken, hload]
    simp [hid, hinv, hcfg, hu, hrt]
    repeat' split
    all_goals first | rfl | exact reloadedResult_attempts _ _ _
  · intro cfg env t hload hid hinv hu hrt
    simp only [cliLoadJWTToken, hload]
    simp [hid, hinv, hu, hrt]
    repeat' split
    all_goals rfl
  · intro env t cfg newTok hload hid hinv hcfg hu hrt href hsave s
    simp only [clientLoadJWTToken, hload]
    simp only [StoredToken.GetToken]
    simp [hid, hinv, hcfg, hu, hrt, href, hsave]
    exact reloadedResult_ok_eq _ _ _ _
  · intro cfg env t newTok hload hid hinv hu hrt href hsave
    simp only [cliLoadJWTToken, hload]
    simp [hid, hinv, hu, hrt, href, hsave]
  · intro env t hload hid hinv e
    simp only [clientLoadJWTToken, hload]
    simp [hid, hinv]
    cases hcfg : env.loadConfig with
    | error msg =>
      intro he
      simp at he
      subst he
      decide
    | ok cfg =>
      dsimp only
      by_cases hc : cfg.OAuthUseRefresh = true ∧ t.RefreshToken ≠ ""
      · rw [if_pos hc]
        cases hr : env.refreshOutcome with
        | error msg =>
          intro he
          simp at he
          subst he
          decide
        | ok newTok =>
          cases hs : env.saveOutcome with
          | error msg =>
            intro he
            simp at he
            subst he
            decide
          | ok u =>
            exact reloadedResult_error_reauth _ _ _ _
      · rw [if_neg hc]
        intro he
        simp at he
        subst he
        decide
  · intro cfg env t hload hid hinv hno
    refine ⟨?_, by decide⟩
    simp only [cliLoadJWTToken, hload]
    simp [hid, hinv, hno]
  · intro cfg env t e hload hid hinv hu hrt href
    simp only [cliLoadJWTToken, hload]
    simp [hid, hinv, hu, hrt, href]

/-- Witness for C5 (amended): one environment where the refresh round
succeeds and one where it fails, exercising the tomapi and CLI dispatcher
conjuncts at concrete inputs. -/
theorem jwt_refresh_discipline_witness :
    (clientLoadJWTToken envRefreshOk).refreshAttempts = 1 ∧
    (cliLoadJWTToken cfgEx envRefreshFails).result =
      .error ("failed to refresh access token: " ++ "boom") :=
  ⟨jwt_refresh_discipline.2.2.1 envRefreshOk invalidStoredTok cfgEx rfl (by decide)
     (by decide) rfl rfl (by decide),
   jwt_refresh_discipline.2.2.2.2.2.2.2.2 cfgEx envRefreshFails invalidStoredTok "boom"
     rfl (by decide) (by decide) rfl (by decide) rfl⟩

end TomClient
